import Mathlib

/-!
Shallow embedding of the gellyfin control service (`main.go`): a small HTTP
surface that restarts a Nomad job via a subprocess and aggregates two
reachability probes. Handlers are modelled as pure functions from the
configuration, the request, and oracle inputs (the subprocess outcome, the
probe outcomes, clocks) to a response paired with a list of observable side
effects (subprocess spawns, outbound probes, metric increments, histogram
observations, log lines).
-/

namespace Gellyfin

/-- Mirror of the Go `Config` struct (`main.go`). Durations are integer
nanoseconds, matching Go's `time.Duration`. -/
structure Config where
  Port : String
  NomadAddr : String
  NomadBinary : String
  JobName : String
  ServiceURL : String
  ReadTimeout : Int
  WriteTimeout : Int
  IdleTimeout : Int
deriving DecidableEq, Repr

/-- Mirror of the Go `HealthStatus` struct serialized by `/healthz`. -/
structure HealthStatus where
  Time : String
  GoVersion : String
  NomadStatus : String
  ServiceStatus : String
deriving DecidableEq, Repr

/-- Mirror of the Go `ErrorResponse` struct used for all error bodies. -/
structure ErrorResponse where
  Error : String
  Code : Nat
  Message : String
deriving DecidableEq, Repr

/-- The JSON object written by `restartHandler` on success
(`{success, message, job, output, duration}`); the duration is kept as the
elapsed monotonic nanoseconds rather than Go's rendered string. -/
structure RestartOkBody where
  success : Bool
  message : String
  job : String
  output : String
  durationNs : Nat
deriving DecidableEq, Repr

/-- Response bodies the service can produce. -/
inductive Body where
  | err (e : ErrorResponse)
  | restartOk (b : RestartOkBody)
  | health (h : HealthStatus)
  | text (s : String)
  | file (path : String)
  | metricsExposition
deriving DecidableEq, Repr

/-- An HTTP response: status code plus body. -/
structure Response where
  status : Nat
  body : Body
deriving DecidableEq, Repr

/-- Observable side effects of handling one request. `spawn` records the
argument vector and environment of the subprocess started by
`exec.CommandContext`; `probe` records the target URL of an outbound GET
issued by `checkEndpoint`; `counterInc` and `histObserve` record Prometheus
metric updates (the histogram value is the elapsed nanoseconds); `log`
records a structured log line. -/
inductive Effect where
  | spawn (argv : List String) (env : List String)
  | probe (url : String)
  | counterInc (metric : String) (labels : List String)
  | histObserve (metric : String) (valueNs : Nat)
  | log (level : String) (msg : String)
deriving DecidableEq, Repr

/-- The subprocess spawns among a list of effects. -/
def spawnsOf (effs : List Effect) : List Effect :=
  effs.filter fun e => match e with
    | Effect.spawn _ _ => true
    | _ => false

/-- The outbound probes among a list of effects. -/
def probesOf (effs : List Effect) : List Effect :=
  effs.filter fun e => match e with
    | Effect.probe _ => true
    | _ => false

/-- The counter increments among a list of effects. -/
def counterIncsOf (effs : List Effect) : List Effect :=
  effs.filter fun e => match e with
    | Effect.counterInc _ _ => true
    | _ => false

/-- The histogram observations among a list of effects. -/
def histObservesOf (effs : List Effect) : List Effect :=
  effs.filter fun e => match e with
    | Effect.histObserve _ _ => true
    | _ => false

/-- An inbound HTTP request as the handlers see it: method, peer address,
and content (body, query string, headers) that the handlers never read. -/
structure Request where
  method : String
  remoteAddr : String
  reqBody : String
  query : String
  headers : List (String × String)
deriving DecidableEq, Repr

/-- Outcome of `restartCmd.CombinedOutput()`: either exit code 0 with the
combined stdout+stderr text, or a failure (spawn error, non-zero exit, or
deadline kill) with the combined output so far and the Go error text. -/
inductive CmdResult where
  | ok (output : String)
  | failed (output : String) (errText : String)
deriving DecidableEq, Repr

/-- Outcome of one outbound probe as seen by `checkEndpoint`: request
construction failed, transport/connection failed, or an HTTP response with
the given status code arrived. -/
inductive ProbeOutcome where
  | reqError
  | connError
  | response (status : Nat)
deriving DecidableEq, Repr

/-- Mirror of Go's `http.StatusText` for the codes this service uses. -/
def statusText (code : Nat) : String :=
  match code with
  | 200 => "OK"
  | 405 => "Method Not Allowed"
  | 429 => "Too Many Requests"
  | 500 => "Internal Server Error"
  | _ => ""

/-- Mirror of `sendErrorResponse` (`main.go`): write the given status code
and the JSON body `{error: http.StatusText(code), code, message}`. -/
def sendErrorResponse (message : String) (code : Nat) : Response :=
  { status := code, body := Body.err { Error := statusText code, Code := code, Message := message } }

/-- ASCII rendering of the word-separator test Go's `strings.Title` uses to
decide where a new word begins: letters, digits and underscore are not
separators, everything else is. -/
def isSeparatorChar (c : Char) : Bool :=
  !(c.isAlpha || c.isDigit || c == '_')

/-- Helper for `strTitle`: walk the characters tracking the previous one and
upper-case every letter that follows a separator. -/
def strTitleAux (prev : Char) : List Char → List Char
  | [] => []
  | c :: rest => (if isSeparatorChar prev then c.toUpper else c) :: strTitleAux c rest

/-- ASCII mirror of Go's `strings.Title`, used by `checkEndpoint` to
capitalize the endpoint name in its status strings. -/
def strTitle (s : String) : String :=
  String.mk (strTitleAux ' ' s.data)

/-- Mirror of `checkEndpoint` (`main.go`): classify one probe outcome into a
status string and record exactly one labeled counter increment. The `probe`
effect records the URL the GET request targets. On a request-construction
error or a transport error the target is "not reachable"; a received
response is "reachable" exactly when its status code is 200. -/
def checkEndpoint (o : ProbeOutcome) (url : String) (name : String) : String × List Effect :=
  match o with
  | ProbeOutcome.reqError =>
      (strTitle name ++ " is not reachable (request error)",
       [Effect.probe url, Effect.counterInc "health_checks_total" ["healthz_" ++ name, "error"]])
  | ProbeOutcome.connError =>
      (strTitle name ++ " is not reachable (connection error)",
       [Effect.probe url, Effect.counterInc "health_checks_total" ["healthz_" ++ name, "error"]])
  | ProbeOutcome.response st =>
      if st = 200 then
        (strTitle name ++ " is reachable (HTTP " ++ Nat.repr st ++ ")",
         [Effect.probe url, Effect.counterInc "health_checks_total" ["healthz_" ++ name, "success"]])
      else
        (strTitle name ++ " is not reachable (HTTP " ++ Nat.repr st ++ ")",
         [Effect.probe url, Effect.counterInc "health_checks_total" ["healthz_" ++ name, "error"]])

/-- Oracle inputs for one `/healthz` call: the two probe outcomes, the
current wall-clock rendering and the runtime version string. -/
structure ProbeEnv where
  nomadOutcome : ProbeOutcome
  serviceOutcome : ProbeOutcome
  now : String
  goVersion : String
deriving DecidableEq, Repr

/-- Mirror of `healthzHandler` (`main.go`): reject non-GET with 405; else
probe the orchestrator at `NomadAddr + "/v1/status/leader"` and the managed
service at `ServiceURL`, and serialize the merged `HealthStatus`. -/
def healthzHandler (cfg : Config) (r : Request) (pe : ProbeEnv) : Response × List Effect :=
  if r.method ≠ "GET" then
    (sendErrorResponse "Method not allowed" 405, [])
  else
    let nomadRes := checkEndpoint pe.nomadOutcome (cfg.NomadAddr ++ "/v1/status/leader") "nomad"
    let serviceRes := checkEndpoint pe.serviceOutcome cfg.ServiceURL "service"
    ({ status := 200,
       body := Body.health
         { Time := pe.now, GoVersion := pe.goVersion,
           NomadStatus := nomadRes.1, ServiceStatus := serviceRes.1 } },
     nomadRes.2 ++ serviceRes.2)

/-- Mirror of `healthHandler` (`main.go`): reject non-GET with 405; else
increment the health counter and answer plain-text `OK`. -/
def healthHandler (r : Request) : Response × List Effect :=
  if r.method ≠ "GET" then
    (sendErrorResponse "Method not allowed" 405, [])
  else
    ({ status := 200, body := Body.text "OK" },
     [Effect.counterInc "health_checks_total" ["health", "success"]])

/-- Mirror of `homeHandler` (`main.go`): reject non-GET with 405; else serve
the static index page. -/
def homeHandler (r : Request) : Response × List Effect :=
  if r.method ≠ "GET" then
    (sendErrorResponse "Method not allowed" 405, [])
  else
    ({ status := 200, body := Body.file "static/index.html" }, [])

/-- Mirror of `restartHandler` (`main.go`): reject non-POST with 405; else
spawn `NomadBinary job restart -yes -verbose JobName` with `NOMAD_ADDR`
appended to the inherited environment, observe the elapsed duration in the
restart histogram, and classify the subprocess outcome: on any error,
increment the `error` counter and send a 500 error response; on exit 0,
increment the `success` counter and write the success JSON body. -/
def restartHandler (cfg : Config) (baseEnv : List String) (r : Request)
    (cmd : CmdResult) (durationNs : Nat) : Response × List Effect :=
  if r.method ≠ "POST" then
    (sendErrorResponse "Method not allowed, use POST" 405, [])
  else
    let argv := [cfg.NomadBinary, "job", "restart", "-yes", "-verbose", cfg.JobName]
    let env := baseEnv ++ ["NOMAD_ADDR=" ++ cfg.NomadAddr]
    let pre := [Effect.log "info" "Received request to restart job",
                Effect.spawn argv env,
                Effect.histObserve "jellyfin_restart_duration_seconds" durationNs]
    match cmd with
    | CmdResult.failed output errText =>
        (sendErrorResponse "Failed to restart job" 500,
         pre ++ [Effect.counterInc "jellyfin_restarts_total" ["error"],
                 Effect.log "error" ("Failed to restart job: " ++ errText ++ "; output: " ++ output)])
    | CmdResult.ok output =>
        ({ status := 200,
           body := Body.restartOk
             { success := true, message := "Job restarted successfully",
               job := cfg.JobName, output := output, durationNs := durationNs } },
         pre ++ [Effect.counterInc "jellyfin_restarts_total" ["success"],
                 Effect.log "info" "Job restarted successfully"])

/-- Mirror of `rateLimitMiddleware` (`main.go`): `allow` is the value
`limiter.Allow()` returns for this request. On `false` the request is
rejected with 429 and the wrapped handler never runs (none of its effects
occur). -/
def rateLimitMiddleware (allow : Bool) (next : Response × List Effect) : Response × List Effect :=
  if allow then next
  else (sendErrorResponse "Rate limit exceeded" 429, [Effect.log "warn" "Rate limit exceeded"])

/-- The route table registered in `main` (`main.go`): each pattern paired
with whether it is wrapped in `rateLimitMiddleware`. `/metrics` and
`/static/` are registered without the middleware. -/
def registeredRoutes : List (String × Bool) :=
  [("/", true), ("/restart", true), ("/health", true), ("/healthz", true),
   ("/metrics", false), ("/static/", false)]

/-- Dispatch one request to the handler registered for `route`, mirroring
the `mux` wiring in `main`: the four application routes run behind
`rateLimitMiddleware`; `/metrics` and `/static/` are served directly.
Returns `none` for an unregistered route. -/
def dispatch (cfg : Config) (baseEnv : List String) (allow : Bool) (r : Request)
    (route : String) (cmd : CmdResult) (durationNs : Nat) (pe : ProbeEnv) :
    Option (Response × List Effect) :=
  if route = "/" then some (rateLimitMiddleware allow (homeHandler r))
  else if route = "/restart" then
    some (rateLimitMiddleware allow (restartHandler cfg baseEnv r cmd durationNs))
  else if route = "/health" then some (rateLimitMiddleware allow (healthHandler r))
  else if route = "/healthz" then some (rateLimitMiddleware allow (healthzHandler cfg r pe))
  else if route = "/metrics" then some ({ status := 200, body := Body.metricsExposition }, [])
  else if route = "/static/" then some ({ status := 200, body := Body.file "static" }, [])
  else none

/-- The `unitMap` table of Go's `time.ParseDuration`: nanoseconds per unit. -/
def unitMap (u : String) : Option Nat :=
  match u with
  | "ns" => some 1
  | "us" => some 1000
  | "µs" => some 1000
  | "μs" => some 1000
  | "ms" => some 1000000
  | "s" => some 1000000000
  | "m" => some 60000000000
  | "h" => some 3600000000000
  | _ => none

/-- Mirror of Go's `leadingInt`: consume leading decimal digits into an
accumulator, failing (as Go does) when the value would exceed `2 ^ 63`. -/
def leadingInt (x : Nat) : List Char → Option (Nat × List Char)
  | [] => some (x, [])
  | c :: rest =>
      if c < '0' ∨ '9' < c then some (x, c :: rest)
      else if 2 ^ 63 / 10 < x then none
      else
        let x2 := x * 10 + (c.toNat - '0'.toNat)
        if 2 ^ 63 < x2 then none
        else leadingInt x2 rest

/-- Mirror of Go's `leadingFraction`: consume digits after the decimal
point, tracking the value and the power-of-ten scale, silently dropping
digits once the value would overflow. -/
def leadingFraction (x : Nat) (scale : Nat) (overflow : Bool) :
    List Char → Nat × Nat × List Char
  | [] => (x, scale, [])
  | c :: rest =>
      if c < '0' ∨ '9' < c then (x, scale, c :: rest)
      else if overflow then leadingFraction x scale true rest
      else if (2 ^ 63 - 1) / 10 < x then leadingFraction x scale true rest
      else
        let y := x * 10 + (c.toNat - '0'.toNat)
        if 2 ^ 63 < y then leadingFraction x scale true rest
        else leadingFraction y (scale * 10) false rest

/-- Consume the unit token of one duration segment: every character up to
the next digit or decimal point. -/
def consumeUnit : List Char → List Char × List Char
  | [] => ([], [])
  | c :: rest =>
      if c = '.' ∨ ('0' ≤ c ∧ c ≤ '9') then ([], c :: rest)
      else
        let pr := consumeUnit rest
        (c :: pr.1, pr.2)

/-- The segment loop of Go's `time.ParseDuration`: repeatedly parse
`[0-9]*(\.[0-9]*)?unit` and accumulate nanoseconds, with Go's overflow
checks. Go's float64 fraction contribution `f * (unit / scale)` is rendered
as the exact rational floor `f * unit / scale`. The fuel argument bounds the
recursion; every real iteration consumes at least the nonempty unit token,
so `length + 1` fuel is never exhausted. -/
def parseLoop : Nat → Nat → List Char → Option Nat
  | _, d, [] => some d
  | 0, _, _ :: _ => none
  | fuel + 1, d, c :: rest =>
      if ¬ (c = '.' ∨ ('0' ≤ c ∧ c ≤ '9')) then none
      else
        match leadingInt 0 (c :: rest) with
        | none => none
        | some (v, s1) =>
            let pre := decide (s1.length ≠ (c :: rest).length)
            let fsr : Nat × Nat × List Char × Bool :=
              match s1 with
              | '.' :: s2 =>
                  let lf := leadingFraction 0 1 false s2
                  (lf.1, lf.2.1, lf.2.2, decide (lf.2.2.length ≠ s2.length))
              | _ => (0, 1, s1, false)
            let f := fsr.1
            let scale := fsr.2.1
            let s3 := fsr.2.2.1
            let post := fsr.2.2.2
            if pre = false ∧ post = false then none
            else
              let ur := consumeUnit s3
              if ur.1 = [] then none
              else
                match unitMap (String.mk ur.1) with
                | none => none
                | some unit =>
                    if 2 ^ 63 / unit < v then none
                    else
                      let v1 := v * unit
                      let v2 := if 0 < f then v1 + f * unit / scale else v1
                      if 0 < f ∧ 2 ^ 63 < v2 then none
                      else
                        let d2 := d + v2
                        if 2 ^ 63 < d2 then none
                        else parseLoop fuel d2 ur.2

/-- Mirror of Go's `time.ParseDuration`: optional sign, the special case
`"0"`, then the segment loop; the result is integer nanoseconds, `none` on
any parse error. -/
def ParseDuration (s : String) : Option Int :=
  let orig := s.data
  let signed : Bool × List Char :=
    match orig with
    | c :: rest => if c = '-' ∨ c = '+' then (c = '-', rest) else (false, orig)
    | [] => (false, orig)
  let neg := signed.1
  let s1 := signed.2
  if s1 = ['0'] then some 0
  else if s1 = [] then none
  else
    match parseLoop (s1.length + 1) 0 s1 with
    | none => none
    | some d =>
        if neg then some (-(d : Int))
        else if 2 ^ 63 - 1 < d then none
        else some (d : Int)

/-- Mirror of `parseDuration` (`main.go`): on any parse error, log a warning
and fall back to 10 seconds; never fails. -/
def parseDuration (s : String) : Int :=
  match ParseDuration s with
  | none => 10 * 1000000000
  | some d => d

/-- One second in the nanosecond representation of `time.Duration`. -/
def second : Int := 1000000000

/-- The `HealthStatus` document a handler result carries, when it carries
one. -/
def snapshotOf (res : Response × List Effect) : Option HealthStatus :=
  match res.1.body with
  | Body.health h => some h
  | _ => none

/-- The required method of each application route, from the per-handler
method guards in `main.go`. -/
def routeMethods : List (String × String) :=
  [("/", "GET"), ("/restart", "POST"), ("/health", "GET"), ("/healthz", "GET")]

/-- The default configuration of `loadConfig` (`main.go`), used as a
concrete instantiation point. -/
def cfg0 : Config :=
  { Port := "8888", NomadAddr := "http://consul.service.starnix.net:4646",
    NomadBinary := "/usr/local/bin/nomad", JobName := "jellyfin",
    ServiceURL := "https://jellyfin.service.starnix.net",
    ReadTimeout := 10 * second, WriteTimeout := 10 * second, IdleTimeout := 60 * second }

/-- A concrete POST request used as an instantiation point. -/
def req0 : Request :=
  { method := "POST", remoteAddr := "127.0.0.1:50000", reqBody := "", query := "", headers := [] }

/-- A concrete GET request used as an instantiation point. -/
def reqGet0 : Request :=
  { method := "GET", remoteAddr := "127.0.0.1:50001", reqBody := "", query := "", headers := [] }

/-- A concrete probe environment used as an instantiation point. -/
def pe0 : ProbeEnv :=
  { nomadOutcome := ProbeOutcome.response 200, serviceOutcome := ProbeOutcome.response 500,
    now := "2026-10-12T00:00:00Z", goVersion := "go1.21" }

/-- Filtering probes commutes with list concatenation. -/
theorem probesOf_append (a b : List Effect) :
    probesOf (a ++ b) = probesOf a ++ probesOf b :=
  List.filter_append _ _

/-- Every `checkEndpoint` call issues exactly one probe, at its URL
argument. -/
theorem probes_checkEndpoint (o : ProbeOutcome) (url name : String) :
    probesOf (checkEndpoint o url name).2 = [Effect.probe url] := by
  cases o with
  | reqError => simp [checkEndpoint, probesOf]
  | connError => simp [checkEndpoint, probesOf]
  | response st => by_cases hst : st = 200 <;> simp [checkEndpoint, probesOf, hst]

/-- C6: `parseDuration` maps `"10s"` to 10 seconds, `"1m"` to 60 seconds,
and every string `time.ParseDuration` rejects to the fixed 10-second
fallback, so configuration load never fails on a duration value. -/
theorem parseDuration_spec :
    parseDuration "10s" = 10 * second ∧
    parseDuration "1m" = 60 * second ∧
    ∀ s : String, ParseDuration s = none → parseDuration s = 10 * second := by
  refine ⟨by decide, by decide, ?_⟩
  intro s h
  simp [parseDuration, h, second]

/-- Witness for C6 at the unparsable input `"invalid"`. -/
theorem parseDuration_spec_witness :
    ParseDuration "invalid" = none ∧ parseDuration "invalid" = 10 * second :=
  ⟨by decide, parseDuration_spec.2.2 "invalid" (by decide)⟩

/-- C7: a POST `/restart` whose subprocess exits 0 yields status 200 with
the JSON body `{success := true, message, job, output, duration}`, a
non-negative elapsed duration, and exactly one increment of the restart
counter labeled `success`. -/
theorem restart_success_outcome (cfg : Config) (baseEnv : List String) (r : Request)
    (output : String) (durationNs : Nat) (h : r.method = "POST") :
    (restartHandler cfg baseEnv r (CmdResult.ok output) durationNs).1 =
      { status := 200,
        body := Body.restartOk
          { success := true, message := "Job restarted successfully",
            job := cfg.JobName, output := output, durationNs := durationNs } } ∧
    0 ≤ durationNs ∧
    counterIncsOf (restartHandler cfg baseEnv r (CmdResult.ok output) durationNs).2 =
      [Effect.counterInc "jellyfin_restarts_total" ["success"]] := by
  refine ⟨?_, Nat.zero_le _, ?_⟩ <;>
    simp [restartHandler, h, counterIncsOf]

/-- Witness for C7 at a concrete configuration and request. -/
theorem restart_success_outcome_witness :
    req0.method = "POST" ∧
    ((restartHandler cfg0 [] req0 (CmdResult.ok "done") 5).1 =
      { status := 200,
        body := Body.restartOk
          { success := true, message := "Job restarted successfully",
            job := cfg0.JobName, output := "done", durationNs := 5 } } ∧
    0 ≤ 5 ∧
    counterIncsOf (restartHandler cfg0 [] req0 (CmdResult.ok "done") 5).2 =
      [Effect.counterInc "jellyfin_restarts_total" ["success"]]) :=
  ⟨rfl, restart_success_outcome cfg0 [] req0 "done" 5 rfl⟩

/-- C8: every POST `/restart` that reaches the restart logic records the
elapsed duration into the restart histogram exactly once, whatever the
subprocess outcome. -/
theorem restart_duration_histogram (cfg : Config) (baseEnv : List String) (r : Request)
    (cmd : CmdResult) (durationNs : Nat) (h : r.method = "POST") :
    histObservesOf (restartHandler cfg baseEnv r cmd durationNs).2 =
      [Effect.histObserve "jellyfin_restart_duration_seconds" durationNs] := by
  cases cmd <;> simp [restartHandler, h, histObservesOf]

/-- Witness for C8 at a failing subprocess outcome. -/
theorem restart_duration_histogram_witness :
    req0.method = "POST" ∧
    histObservesOf (restartHandler cfg0 [] req0 (CmdResult.failed "" "exit status 1") 7).2 =
      [Effect.histObserve "jellyfin_restart_duration_seconds" 7] :=
  ⟨rfl, restart_duration_histogram cfg0 [] req0 (CmdResult.failed "" "exit status 1") 7 rfl⟩

/-- C9: the spawned subprocess is a function of the configuration and the
inherited environment alone — any two POST `/restart` requests spawn the
same argument vector `[binary, job, restart, -yes, -verbose, jobName]` with
`NOMAD_ADDR` appended to the environment, whatever their bodies, query
strings or headers. -/
theorem restart_cmd_request_independent (cfg : Config) (baseEnv : List String)
    (r r2 : Request) (cmd cmd2 : CmdResult) (d d2 : Nat)
    (h : r.method = "POST") (h2 : r2.method = "POST") :
    spawnsOf (restartHandler cfg baseEnv r cmd d).2 =
      [Effect.spawn [cfg.NomadBinary, "job", "restart", "-yes", "-verbose", cfg.JobName]
        (baseEnv ++ ["NOMAD_ADDR=" ++ cfg.NomadAddr])] ∧
    spawnsOf (restartHandler cfg baseEnv r cmd d).2 =
      spawnsOf (restartHandler cfg baseEnv r2 cmd2 d2).2 := by
  constructor
  · cases cmd <;> simp [restartHandler, h, spawnsOf]
  · cases cmd <;> cases cmd2 <;> simp [restartHandler, h, h2, spawnsOf]

/-- A concrete POST request with a different body, query string and headers
than `req0`. -/
def req1 : Request :=
  { method := "POST"
    remoteAddr := "10.0.0.9:1234"
    reqBody := "x=1"
    query := "a=b"
    headers := [("X-Test", "1")] }

/-- Witness for C9: two requests differing in body, query and headers spawn
identically. -/
theorem restart_cmd_request_independent_witness :
    req0.method = "POST" ∧ req1.method = "POST" ∧
    (spawnsOf (restartHandler cfg0 [] req0 (CmdResult.ok "") 1).2 =
      [Effect.spawn [cfg0.NomadBinary, "job", "restart", "-yes", "-verbose", cfg0.JobName]
        ([] ++ ["NOMAD_ADDR=" ++ cfg0.NomadAddr])] ∧
    spawnsOf (restartHandler cfg0 [] req0 (CmdResult.ok "") 1).2 =
      spawnsOf (restartHandler cfg0 [] req1 (CmdResult.failed "" "boom") 9).2) :=
  ⟨rfl, rfl,
   restart_cmd_request_independent cfg0 [] req0 req1
     (CmdResult.ok "") (CmdResult.failed "" "boom") 1 9 rfl rfl⟩

/-- C10: a GET `/healthz` issues exactly two probes, the first at the
configured orchestrator address with `/v1/status/leader` appended and the
second at the configured service URL unmodified. -/
theorem healthz_probe_targets (cfg : Config) (r : Request) (pe : ProbeEnv)
    (h : r.method = "GET") :
    probesOf (healthzHandler cfg r pe).2 =
      [Effect.probe (cfg.NomadAddr ++ "/v1/status/leader"), Effect.probe cfg.ServiceURL] := by
  simp [healthzHandler, h, probesOf_append, probes_checkEndpoint]

/-- Witness for C10 at a concrete configuration and probe environment. -/
theorem healthz_probe_targets_witness :
    reqGet0.method = "GET" ∧
    probesOf (healthzHandler cfg0 reqGet0 pe0).2 =
      [Effect.probe (cfg0.NomadAddr ++ "/v1/status/leader"), Effect.probe cfg0.ServiceURL] :=
  ⟨rfl, healthz_probe_targets cfg0 reqGet0 pe0 rfl⟩

/-- C3: the `/healthz` snapshot always carries both results — the
orchestrator field is `checkEndpoint` of the orchestrator's own outcome and
the service field is `checkEndpoint` of the service's own outcome — and each
field is unchanged under any change to the other target's outcome. -/
theorem healthz_probe_independence (cfg : Config) (r : Request) (pe pe2 : ProbeEnv)
    (h : r.method = "GET") :
    snapshotOf (healthzHandler cfg r pe) =
      some { Time := pe.now, GoVersion := pe.goVersion,
             NomadStatus :=
               (checkEndpoint pe.nomadOutcome (cfg.NomadAddr ++ "/v1/status/leader") "nomad").1,
             ServiceStatus := (checkEndpoint pe.serviceOutcome cfg.ServiceURL "service").1 } ∧
    (pe.nomadOutcome = pe2.nomadOutcome →
      (snapshotOf (healthzHandler cfg r pe)).map HealthStatus.NomadStatus =
        (snapshotOf (healthzHandler cfg r pe2)).map HealthStatus.NomadStatus) ∧
    (pe.serviceOutcome = pe2.serviceOutcome →
      (snapshotOf (healthzHandler cfg r pe)).map HealthStatus.ServiceStatus =
        (snapshotOf (healthzHandler cfg r pe2)).map HealthStatus.ServiceStatus) := by
  refine ⟨?_, ?_, ?_⟩
  · simp [healthzHandler, h, snapshotOf]
  · intro he; simp [healthzHandler, h, snapshotOf, he]
  · intro he; simp [healthzHandler, h, snapshotOf, he]

/-- Witness for C3: the other target's outcome flips from HTTP 500 to a
connection error without changing the first target's field. -/
theorem healthz_probe_independence_witness :
    reqGet0.method = "GET" ∧
    (snapshotOf (healthzHandler cfg0 reqGet0 pe0) =
      some { Time := pe0.now, GoVersion := pe0.goVersion,
             NomadStatus :=
               (checkEndpoint pe0.nomadOutcome (cfg0.NomadAddr ++ "/v1/status/leader") "nomad").1,
             ServiceStatus := (checkEndpoint pe0.serviceOutcome cfg0.ServiceURL "service").1 } ∧
    (pe0.nomadOutcome = ({ pe0 with serviceOutcome := ProbeOutcome.connError } : ProbeEnv).nomadOutcome →
      (snapshotOf (healthzHandler cfg0 reqGet0 pe0)).map HealthStatus.NomadStatus =
        (snapshotOf (healthzHandler cfg0 reqGet0
          { pe0 with serviceOutcome := ProbeOutcome.connError })).map HealthStatus.NomadStatus) ∧
    (pe0.serviceOutcome = ({ pe0 with serviceOutcome := ProbeOutcome.connError } : ProbeEnv).serviceOutcome →
      (snapshotOf (healthzHandler cfg0 reqGet0 pe0)).map HealthStatus.ServiceStatus =
        (snapshotOf (healthzHandler cfg0 reqGet0
          { pe0 with serviceOutcome := ProbeOutcome.connError })).map HealthStatus.ServiceStatus)) :=
  ⟨rfl, healthz_probe_independence cfg0 reqGet0 pe0
    { pe0 with serviceOutcome := ProbeOutcome.connError } rfl⟩

set_option maxRecDepth 8192 in
/-- C5: any wrong-method request to `/`, `/restart`, `/health` or
`/healthz` that passes admission is answered 405 with the standard error
body `{error: Method Not Allowed, code: 405, message}` and produces no
effects at all — in particular no subprocess spawn and no outbound probe. -/
theorem wrong_method_405 (cfg : Config) (baseEnv : List String) (r : Request)
    (route required : String) (cmd : CmdResult) (durationNs : Nat) (pe : ProbeEnv)
    (hm : (route, required) ∈ routeMethods) (hw : r.method ≠ required) :
    ∃ m, dispatch cfg baseEnv true r route cmd durationNs pe =
      some ({ status := 405,
              body := Body.err { Error := "Method Not Allowed", Code := 405, Message := m } },
            []) := by
  simp only [routeMethods, List.mem_cons, List.not_mem_nil, or_false, Prod.mk.injEq] at hm
  rcases hm with ⟨h1, h2⟩ | ⟨h1, h2⟩ | ⟨h1, h2⟩ | ⟨h1, h2⟩ <;> subst h1 <;> subst h2
  · exact ⟨"Method not allowed",
      by simp [dispatch, rateLimitMiddleware, homeHandler, hw, sendErrorResponse, statusText]⟩
  · exact ⟨"Method not allowed, use POST",
      by simp [dispatch, rateLimitMiddleware, restartHandler, hw, sendErrorResponse, statusText]⟩
  · exact ⟨"Method not allowed",
      by simp [dispatch, rateLimitMiddleware, healthHandler, hw, sendErrorResponse, statusText]⟩
  · exact ⟨"Method not allowed",
      by simp [dispatch, rateLimitMiddleware, healthzHandler, hw, sendErrorResponse, statusText]⟩

/-- Witness for C5: a GET to `/restart` is answered 405 with the standard
error body and no effects. -/
theorem wrong_method_405_witness :
    ("/restart", "POST") ∈ routeMethods ∧ reqGet0.method ≠ "POST" ∧
    ∃ m, dispatch cfg0 [] true reqGet0 "/restart" (CmdResult.ok "") 0 pe0 =
      some ({ status := 405,
              body := Body.err { Error := "Method Not Allowed", Code := 405, Message := m } },
            []) :=
  ⟨by decide, by decide,
   wrong_method_405 cfg0 [] reqGet0 "/restart" "POST" (CmdResult.ok "") 0 pe0
     (by decide) (by decide)⟩

/-- C1 counterexample: with the default configuration, a POST `/restart`
whose subprocess fails with `exit status 1` is answered with HTTP status
500 — not 200 — and the body is the fixed standard error record, which does
not carry the subprocess's error text or output. -/
theorem restart_failure_status_cx :
    (restartHandler cfg0 [] req0 (CmdResult.failed "boom" "exit status 1") 5).1.status = 500 ∧
    (restartHandler cfg0 [] req0 (CmdResult.failed "boom" "exit status 1") 5).1.status ≠ 200 ∧
    (restartHandler cfg0 [] req0 (CmdResult.failed "boom" "exit status 1") 5).1.body =
      Body.err { Error := "Internal Server Error", Code := 500,
                 Message := "Failed to restart job" } := by
  refine ⟨rfl, by decide, rfl⟩

/-- C1 amended: on any subprocess failure (spawn error, non-zero exit, or
deadline kill) the restart handler answers 500 with the standard error body
whose message is the fixed string `Failed to restart job`; the underlying
error text and captured output appear only in the error log, and the
`error` restart counter is incremented exactly once. -/
theorem restart_failure_amended (cfg : Config) (baseEnv : List String) (r : Request)
    (output errText : String) (durationNs : Nat) (h : r.method = "POST") :
    (restartHandler cfg baseEnv r (CmdResult.failed output errText) durationNs).1 =
      { status := 500,
        body := Body.err { Error := "Internal Server Error", Code := 500,
                           Message := "Failed to restart job" } } ∧
    counterIncsOf (restartHandler cfg baseEnv r (CmdResult.failed output errText) durationNs).2 =
      [Effect.counterInc "jellyfin_restarts_total" ["error"]] ∧
    (restartHandler cfg baseEnv r (CmdResult.failed output errText) durationNs).2.contains
      (Effect.log "error" ("Failed to restart job: " ++ errText ++ "; output: " ++ output)) = true := by
  refine ⟨?_, ?_, ?_⟩ <;>
    simp [restartHandler, h, counterIncsOf, sendErrorResponse, statusText]

/-- Witness for C1's amended statement at a concrete failing subprocess. -/
theorem restart_failure_amended_witness :
    req0.method = "POST" ∧
    ((restartHandler cfg0 [] req0 (CmdResult.failed "no leader" "exit status 1") 5).1 =
      { status := 500,
        body := Body.err { Error := "Internal Server Error", Code := 500,
                           Message := "Failed to restart job" } } ∧
    counterIncsOf (restartHandler cfg0 [] req0 (CmdResult.failed "no leader" "exit status 1") 5).2 =
      [Effect.counterInc "jellyfin_restarts_total" ["error"]] ∧
    (restartHandler cfg0 [] req0 (CmdResult.failed "no leader" "exit status 1") 5).2.contains
      (Effect.log "error" ("Failed to restart job: " ++ "exit status 1" ++ "; output: " ++ "no leader")) = true) :=
  ⟨rfl, restart_failure_amended cfg0 [] req0 "no leader" "exit status 1" 5 rfl⟩

/-- C2 counterexample: `/metrics` is a registered route, yet with the
admission gate answering `false` the request is still served with status
200 and no 429 rejection — the gate does not run on every registered
route. -/
theorem admission_metrics_cx :
    ("/metrics", false) ∈ registeredRoutes ∧
    dispatch cfg0 [] false reqGet0 "/metrics" (CmdResult.ok "") 0 pe0 =
      some ({ status := 200, body := Body.metricsExposition }, []) ∧
    ((dispatch cfg0 [] false reqGet0 "/metrics" (CmdResult.ok "") 0 pe0).map
      (fun p => p.1.status)) ≠ some 429 := by
  refine ⟨by decide, rfl, by decide⟩

/-- C2 amended: on the four application routes `/`, `/restart`, `/health`
and `/healthz` the admission check runs before any handler logic; when it
answers `false` the response is 429 with the standard error body and the
only effect is a warning log — no subprocess spawn, no outbound probe, no
counter increment. The `/metrics` and `/static/` routes are registered
without the admission gate. -/
theorem admission_gate_amended (cfg : Config) (baseEnv : List String) (r : Request)
    (route : String) (cmd : CmdResult) (durationNs : Nat) (pe : ProbeEnv)
    (h : route ∈ ["/", "/restart", "/health", "/healthz"]) :
    dispatch cfg baseEnv false r route cmd durationNs pe =
      some ({ status := 429,
              body := Body.err { Error := "Too Many Requests", Code := 429,
                                 Message := "Rate limit exceeded" } },
            [Effect.log "warn" "Rate limit exceeded"]) ∧
    ((dispatch cfg baseEnv false r route cmd durationNs pe).map fun p => spawnsOf p.2) = some [] ∧
    ((dispatch cfg baseEnv false r route cmd durationNs pe).map fun p => probesOf p.2) = some [] ∧
    ((dispatch cfg baseEnv false r route cmd durationNs pe).map fun p => counterIncsOf p.2) = some [] := by
  simp only [List.mem_cons, List.not_mem_nil, or_false] at h
  rcases h with h | h | h | h <;> subst h <;>
    refine ⟨?_, ?_, ?_, ?_⟩ <;>
      simp [dispatch, rateLimitMiddleware, sendErrorResponse, statusText,
            spawnsOf, probesOf, counterIncsOf]

/-- Witness for C2's amended statement: a rate-limited POST to `/restart`
is rejected with 429 and produces no spawn, probe, or counter effect. -/
theorem admission_gate_amended_witness :
    ("/restart" : String) ∈ ["/", "/restart", "/health", "/healthz"] ∧
    (dispatch cfg0 [] false req0 "/restart" (CmdResult.ok "") 0 pe0 =
      some ({ status := 429,
              body := Body.err { Error := "Too Many Requests", Code := 429,
                                 Message := "Rate limit exceeded" } },
            [Effect.log "warn" "Rate limit exceeded"]) ∧
    ((dispatch cfg0 [] false req0 "/restart" (CmdResult.ok "") 0 pe0).map fun p => spawnsOf p.2) = some [] ∧
    ((dispatch cfg0 [] false req0 "/restart" (CmdResult.ok "") 0 pe0).map fun p => probesOf p.2) = some [] ∧
    ((dispatch cfg0 [] false req0 "/restart" (CmdResult.ok "") 0 pe0).map fun p => counterIncsOf p.2) = some []) :=
  ⟨by decide, admission_gate_amended cfg0 [] req0 "/restart" (CmdResult.ok "") 0 pe0 (by decide)⟩

/-- Appending to a common left part cannot equalize strings of different
lengths. -/
theorem append_ne_of_length_ne (t a b : String) (h : a.length ≠ b.length) :
    ¬ (t ++ a = t ++ b) := by
  intro hEq
  apply h
  have hl := congrArg String.length hEq
  rw [String.length_append, String.length_append] at hl
  omega

set_option maxRecDepth 8192 in
/-- C4: `checkEndpoint` classifies every probe outcome into exactly one of
the three buckets of its match, increments exactly one counter labeled by
the endpoint name and the outcome, the `success` label occurs exactly when
an HTTP response with status exactly 200 arrived, and the status string is
the reachable form exactly in that same case. -/
theorem checkEndpoint_classification (o : ProbeOutcome) (url name : String) :
    (∃ lbl, (lbl = "success" ∨ lbl = "error") ∧
      counterIncsOf (checkEndpoint o url name).2 =
        [Effect.counterInc "health_checks_total" ["healthz_" ++ name, lbl]] ∧
      (lbl = "success" ↔ o = ProbeOutcome.response 200)) ∧
    ((checkEndpoint o url name).1 = strTitle name ++ " is reachable (HTTP 200)" ↔
      o = ProbeOutcome.response 200) := by
  cases o with
  | reqError =>
      refine ⟨⟨"error", Or.inr rfl, by simp [checkEndpoint, counterIncsOf], by simp⟩, ?_⟩
      simp only [checkEndpoint]
      constructor
      · intro hEq
        exact absurd hEq (append_ne_of_length_ne _ _ _ (by decide))
      · intro hc
        exact absurd hc (by simp)
  | connError =>
      refine ⟨⟨"error", Or.inr rfl, by simp [checkEndpoint, counterIncsOf], by simp⟩, ?_⟩
      simp only [checkEndpoint]
      constructor
      · intro hEq
        exact absurd hEq (append_ne_of_length_ne _ _ _ (by decide))
      · intro hc
        exact absurd hc (by simp)
  | response st =>
      by_cases hst : st = 200
      · subst hst
        refine ⟨⟨"success", Or.inl rfl, by simp [checkEndpoint, counterIncsOf], by simp⟩, ?_⟩
        simp only [checkEndpoint, if_pos rfl]
        constructor
        · intro _
          trivial
        · intro _
          rw [if_pos trivial]
          rw [String.append_assoc, String.append_assoc]
          exact congrArg (String.append (strTitle name)) (by decide)
      · refine ⟨⟨"error", Or.inr rfl, by simp [checkEndpoint, counterIncsOf, hst],
                 by simp [hst]⟩, ?_⟩
        simp only [checkEndpoint, if_neg hst]
        constructor
        · intro hEq
          exfalso
          rw [String.append_assoc, String.append_assoc] at hEq
          refine append_ne_of_length_ne _ _ _ ?_ hEq
          rw [String.length_append, String.length_append]
          have l1 : (" is not reachable (HTTP " : String).length = 24 := rfl
          have l2 : (")" : String).length = 1 := rfl
          have l3 : (" is reachable (HTTP 200)" : String).length = 24 := rfl
          omega
        · intro hc
          exact absurd hc (by simp [hst])

end Gellyfin
